import Mathlib

/-!
Shallow embedding of the `ladybug_comfort.collection` module
(`utci.py` and `solarcal.py`): the UTCI comfort calculator and the
outdoor SolarCal radiant-exchange calculator, together with the
validation/alignment layer they call into.

Numeric values are modelled as rationals.  Python exceptions become
`Except` errors.  External collaborators (the UTCI formula, the
outdoor sky heat-exchange formula, the sun-position adapter and the
SHARP formula) are black-box pure functions per the spec, so the
constructors take them as explicit function arguments.
-/

set_option linter.unusedVariables false

/-- Physical-quantity tags carried by data-collection headers, covering the
quantities used by the two calculators. -/
inductive DataType where
  | Temperature
  | AirTemperature
  | MeanRadiantTemperature
  | Irradiance
  | Radiation
  | HorizontalInfraredRadiationIntensity
  | Percentage
  | RelativeHumidity
  | Speed
  | WindSpeed
  deriving DecidableEq, Repr

/-- Modelled from the spec: `_check_datacoll` accepts a quantity tag matching
the expected quantity "or a documented subtype thereof"; the subtypes used by
these calculators are the temperature specialisations and wind speed. -/
def DataType.isInstance (d e : DataType) : Bool :=
  d == e ||
    (match d, e with
     | .AirTemperature, .Temperature => true
     | .MeanRadiantTemperature, .Temperature => true
     | .WindSpeed, .Speed => true
     | _, _ => false)

/-- Header of a data collection: quantity tag, unit string, and the analysis
period's native timestep. -/
structure Header where
  data_type : DataType
  unit : String
  timestep : Nat
  deriving DecidableEq, Repr

/-- Modelled from the spec: the external time-series stream type, with ordered
values, a length-matched timestamp sequence, a header, and a flag recording
whether the collection is hourly (an `HourlyDiscontinuousCollection`). -/
structure DataCollection where
  header : Header
  values : List ℚ
  datetimes : List Nat
  hourly : Bool
  wf : values.length = datetimes.length

/-- Modelled from the spec: `get_aligned_collection(constant_value, data_type,
unit)` returns a broadcast stream sharing the receiver's timestamps. -/
def DataCollection.get_aligned_collection (c : DataCollection) (v : ℚ)
    (dt : DataType) (u : String) : DataCollection :=
  { header := { data_type := dt, unit := u, timestep := c.header.timestep },
    values := List.replicate c.datetimes.length v,
    datetimes := c.datetimes,
    hourly := c.hourly,
    wf := by simp }

/-- Error kinds raised during construction (spec section 7), plus the
assertion that a radiation input must be an hourly collection. -/
inductive ComfortError where
  | TypeMismatch (name : String)
  | UnitMismatch (name : String)
  | InvalidTimestep (name : String)
  | MisalignedCollections
  | NotHourly (name : String)
  deriving DecidableEq, Repr

/-- A "stream or scalar" input: a data collection or a single number. -/
inductive CollOrNum where
  | coll (c : DataCollection)
  | num (x : ℚ)

instance {ε α : Type} [DecidableEq ε] [DecidableEq α] :
    DecidableEq (Except ε α) := fun a b =>
  match a, b with
  | Except.error e, Except.error e' =>
      if h : e = e' then Decidable.isTrue (by rw [h])
      else Decidable.isFalse (fun hc => h (by injection hc))
  | Except.ok x, Except.ok y =>
      if h : x = y then Decidable.isTrue (by rw [h])
      else Decidable.isFalse (fun hc => h (by injection hc))
  | Except.error _, Except.ok _ =>
      Decidable.isFalse (fun hc => Except.noConfusion hc)
  | Except.ok _, Except.error _ =>
      Decidable.isFalse (fun hc => Except.noConfusion hc)

/-- Modelled from the spec: `_check_datacoll` fails with `TypeMismatch` unless
the quantity tag matches the expected quantity (or a documented subtype) and
with `UnitMismatch` unless the unit equals the expected unit. -/
def check_datacoll (c : DataCollection) (dt : DataType) (u : String)
    (name : String) : Except ComfortError Unit :=
  if c.header.data_type.isInstance dt then
    if c.header.unit = u then Except.ok ()
    else Except.error (ComfortError.UnitMismatch name)
  else Except.error (ComfortError.TypeMismatch name)

/-- Modelled from the spec: `check_input` on a stream validates it via
`_check_datacoll` and returns its values together with the stream to register;
on a scalar it broadcasts the value to a list of length `calc_length`,
registering nothing. -/
def check_input (x : CollOrNum) (dt : DataType) (u : String) (name : String)
    (calc_length : Nat) : Except ComfortError (List ℚ × List DataCollection) :=
  match x with
  | CollOrNum.coll c =>
      match check_datacoll c dt u name with
      | Except.error e => Except.error e
      | Except.ok _ => Except.ok (c.values, [c])
  | CollOrNum.num v => Except.ok (List.replicate calc_length v, [])

/-- Two collections agree in length and in every timestamp. -/
def colls_match (c d : DataCollection) : Bool :=
  d.values.length == c.values.length && d.datetimes == c.datetimes

/-- Modelled from the spec: `are_collections_aligned` fails with
`MisalignedCollections` if any two registered streams differ in length or in
any timestamp. -/
def are_collections_aligned (colls : List DataCollection) :
    Except ComfortError Unit :=
  match colls with
  | [] => Except.ok ()
  | c :: rest =>
      if rest.all (colls_match c) then Except.ok ()
      else Except.error ComfortError.MisalignedCollections

/-- Errors that a percentage accessor can surface: Python's unguarded division
by zero, or the explicit empty-series error the spec contemplates. -/
inductive PyError where
  | ZeroDivisionError
  | EmptySeries
  deriving DecidableEq, Repr

/-! ## UTCI calculator (`utci.py`) -/

/-- State of a constructed `UTCI` object: the validated per-step input value
lists, the registered input collections, and the derived arrays computed by
`_calculate_utci`. -/
structure UTCIState where
  calc_length : Nat
  air_temperature : List ℚ
  rel_humidity : List ℚ
  rad_temperature : List ℚ
  wind_speed : List ℚ
  input_collections : List DataCollection
  utci : List ℚ
  thermal_category : List Int

/-- Four-way zip, truncating to the shortest list, as Python's `zip` does. -/
def zip4 (a b c d : List ℚ) : List (ℚ × ℚ × ℚ × ℚ) :=
  match a, b, c, d with
  | x :: a', y :: b', z :: c', w :: d' => (x, y, z, w) :: zip4 a' b' c' d'
  | _, _, _, _ => []

/-- `UTCI._calculate_utci`: run the external comfort-index formula on each
zipped step and classify each result on the eleven-point scale. -/
def calculate_utci (formula : ℚ → ℚ → ℚ → ℚ → ℚ) (eleven_pt : ℚ → Int)
    (air rad wind rh : List ℚ) : List ℚ × List Int :=
  let results := (zip4 air rad wind rh).map
    (fun q => formula q.1 q.2.1 q.2.2.1 q.2.2.2)
  (results, results.map eleven_pt)

/-- `UTCI.__init__`: validate the base air-temperature collection, resolve the
required humidity and the optional radiant-temperature and wind-speed inputs
(defaults: air temperature and 0.1 m/s), check alignment, then compute the
UTCI values and eleven-point categories.  `formula` is the external
`universal_thermal_climate_index`; `eleven_pt` is the comfort parameter's
eleven-point classifier. -/
def UTCI.construct (formula : ℚ → ℚ → ℚ → ℚ → ℚ) (eleven_pt : ℚ → Int)
    (air_temperature : DataCollection) (rel_humidity : CollOrNum)
    (rad_temperature : Option CollOrNum) (wind_speed : Option CollOrNum) :
    Except ComfortError UTCIState :=
  match check_datacoll air_temperature DataType.Temperature "C"
      "air_temperature" with
  | Except.error e => Except.error e
  | Except.ok _ =>
    let calc_length := air_temperature.values.length
    let air := air_temperature.values
    match check_input rel_humidity DataType.RelativeHumidity "%"
        "rel_humidity" calc_length with
    | Except.error e => Except.error e
    | Except.ok (rh, reg_rh) =>
      match (match rad_temperature with
             | some x => check_input x DataType.Temperature "C"
                 "rad_temperature" calc_length
             | none => Except.ok (air, [])) with
      | Except.error e => Except.error e
      | Except.ok (rad, reg_rad) =>
        match (match wind_speed with
               | some x => check_input x DataType.Speed "m/s" "air_speed"
                   calc_length
               | none => Except.ok (List.replicate calc_length (1/10), [])) with
        | Except.error e => Except.error e
        | Except.ok (wind, reg_wind) =>
          let input_collections :=
            air_temperature :: (reg_rh ++ reg_rad ++ reg_wind)
          match are_collections_aligned input_collections with
          | Except.error e => Except.error e
          | Except.ok _ =>
            let r := calculate_utci formula eleven_pt air rad wind rh
            Except.ok
              { calc_length := calc_length
                air_temperature := air
                rel_humidity := rh
                rad_temperature := rad
                wind_speed := wind
                input_collections := input_collections
                utci := r.1
                thermal_category := r.2 }

/-- Shared body of every percentage accessor: `100 * count / calc_length`,
where Python's division raises `ZeroDivisionError` when `calc_length == 0`. -/
def percent_of (cat : List Int) (n : Nat) (p : Int → Bool) :
    Except PyError ℚ :=
  if n = 0 then Except.error PyError.ZeroDivisionError
  else Except.ok ((((cat.countP p : Nat) : ℚ) / (n : ℚ)) * 100)

/-- `UTCI.percent_comfortable`: percent of steps whose eleven-point category
is exactly 0. -/
def UTCIState.percent_comfortable (s : UTCIState) : Except PyError ℚ :=
  percent_of s.thermal_category s.calc_length (fun t => t == 0)

/-- `UTCI.percent_uncomfortable`: `100 - percent_comfortable` (so any error in
`percent_comfortable` propagates). -/
def UTCIState.percent_uncomfortable (s : UTCIState) : Except PyError ℚ :=
  match s.percent_comfortable with
  | Except.error e => Except.error e
  | Except.ok pc => Except.ok (100 - pc)

/-- `UTCI.percent_neutral`: literally returns `percent_comfortable`. -/
def UTCIState.percent_neutral (s : UTCIState) : Except PyError ℚ :=
  s.percent_comfortable

/-- `UTCI.percent_cold`: percent of steps with eleven-point category `< 0`. -/
def UTCIState.percent_cold (s : UTCIState) : Except PyError ℚ :=
  percent_of s.thermal_category s.calc_length (fun t => t < 0)

/-- `UTCI.percent_hot`: percent of steps with eleven-point category `> 0`. -/
def UTCIState.percent_hot (s : UTCIState) : Except PyError ℚ :=
  percent_of s.thermal_category s.calc_length (fun t => t > 0)

/-- Single-category percentage accessor: percent of steps whose eleven-point
category equals `k` (the ten named stress percentages). -/
def UTCIState.percent_category (s : UTCIState) (k : Int) : Except PyError ℚ :=
  percent_of s.thermal_category s.calc_length (fun t => t == k)

/-- `UTCI._condit_val_funct`: the tri-state cold/neutral/hot classification,
mapped over the cached UTCI values with the comfort parameter's
`thermal_condition` function. -/
def UTCIState.condit_val_funct (s : UTCIState) (tri : ℚ → Int) : List Int :=
  s.utci.map tri

/-! ## Outdoor SolarCal calculator (`solarcal.py`) -/

/-- Body posture enumeration of the SolarCal body parameters. -/
inductive Posture where
  | standing
  | sitting
  | lying
  deriving DecidableEq, Repr

/-- Modelled from the spec: `SolarCalParameter` — posture, optional fixed body
azimuth, a fixed SHARP angle used when the azimuth is absent, and the body's
solar absorptivity and longwave emissivity.  Immutable once constructed. -/
structure SolarCalParameter where
  posture : Posture
  body_azimuth : Option ℚ
  sharp : ℚ
  body_absorptivity : ℚ
  body_emissivity : ℚ
  deriving DecidableEq, Repr

/-- `_SolarCalBase._body_par_check`: a `None` body parameter defaults to a
standing posture (with the library's default angles and optical
properties). -/
def default_body_par : SolarCalParameter :=
  { posture := Posture.standing
    body_azimuth := none
    sharp := 135
    body_absorptivity := 7/10
    body_emissivity := 19/20 }

/-- The five scalars returned by the external `outdoor_sky_heat_exch`
formula: shortwave/longwave effective radiant field, shortwave/longwave MRT
delta, and the resulting mean radiant temperature. -/
structure HeatExchResult where
  s_erf : ℚ
  s_dmrt : ℚ
  l_erf : ℚ
  l_dmrt : ℚ
  mrt : ℚ
  deriving DecidableEq, Repr

/-- The signature of `outdoor_sky_heat_exch`: surface temperature, horizontal
infrared, diffuse solar, direct solar, altitude, sky exposure, fraction
exposed, floor reflectance, posture, SHARP, absorptivity, emissivity. -/
def HeatExch : Type :=
  ℚ → ℚ → ℚ → ℚ → ℚ → ℚ → ℚ → ℚ → Posture → ℚ → ℚ → ℚ → HeatExchResult

/-- `_SolarCalBase._radiation_check`: the input must be an hourly collection;
a `Radiation`-tagged collection is checked against `Wh/m2` and must have a
native timestep of 1; any other collection is checked against `Irradiance`
and `W/m2` with no timestep restriction. -/
def radiation_check (c : DataCollection) (name : String) :
    Except ComfortError DataCollection :=
  if c.hourly = false then Except.error (ComfortError.NotHourly name)
  else if c.header.data_type.isInstance DataType.Radiation then
    match check_datacoll c DataType.Radiation "Wh/m2" name with
    | Except.error e => Except.error e
    | Except.ok _ =>
        if c.header.timestep = 1 then Except.ok c
        else Except.error (ComfortError.InvalidTimestep name)
  else
    match check_datacoll c DataType.Irradiance "W/m2" name with
    | Except.error e => Except.error e
    | Except.ok _ => Except.ok c

/-- `_check_input` as used by the SolarCal collection: a stream is validated
and registered and returned as-is; a scalar is broadcast along the base
collection's timestamps via `get_aligned_collection` and not registered. -/
def check_input_coll (x : CollOrNum) (dt : DataType) (u : String)
    (name : String) (base : DataCollection) :
    Except ComfortError (DataCollection × List DataCollection) :=
  match x with
  | CollOrNum.coll c =>
      match check_datacoll c dt u name with
      | Except.error e => Except.error e
      | Except.ok _ => Except.ok (c, [c])
  | CollOrNum.num v => Except.ok (base.get_aligned_collection v dt u, [])

/-- One `outdoor_sky_heat_exch` call per zipped step of the nine per-step
sequences, truncating to the shortest as Python's `zip` does.  The zip order
and the argument order match `_calculate_solarcal`. -/
def solarcal_rows (f : HeatExch) (bp : SolarCalParameter) :
    List ℚ → List ℚ → List ℚ → List ℚ → List ℚ → List ℚ → List ℚ → List ℚ →
    List ℚ → List HeatExchResult
  | ts :: a, hi :: b, df :: c, dr :: d, al :: e, sh :: g, se :: h, fe :: i,
    fr :: j =>
      f ts hi df dr al se fe fr bp.posture sh bp.body_absorptivity
          bp.body_emissivity
        :: solarcal_rows f bp a b c d e g h i j
  | _, _, _, _, _, _, _, _, _ => []

/-- State of a constructed `OutdoorSolarCal` object: the stored input
collections (note that `_dir_norm` holds whatever `_radiation_check` returned
for it), the registered collections, the solar-position intermediates, and
the six derived arrays. -/
structure SolarCalState where
  calc_length : Nat
  dir_norm : DataCollection
  diff_horiz : DataCollection
  horiz_ir : DataCollection
  srf_temp : DataCollection
  fract_exp : DataCollection
  sky_exp : DataCollection
  flr_ref : DataCollection
  body_par : SolarCalParameter
  input_collections : List DataCollection
  altitudes : List ℚ
  sharps : List ℚ
  s_erf : List ℚ
  s_dmrt : List ℚ
  l_erf : List ℚ
  l_dmrt : List ℚ
  dmrt : List ℚ
  mrt : List ℚ

/-- `OutdoorSolarCal.__init__` followed by `_calculate_solarcal`.

The external collaborators are explicit arguments: `sun_altitude` and
`sun_azimuth` give the solar position for a timestamp (the `Sunpath`
adapter), `sharp_from` is `sharp_from_solar_and_body_azimuth`, and `f` is
`outdoor_sky_heat_exch`.

Faithful to the source: both `_dir_norm` and `_diff_horiz` are assigned from
`diffuse_horizontal_solar` (lines 136-139 of `solarcal.py`); the
`direct_normal_solar` argument is never read after binding. -/
def OutdoorSolarCal.construct (sun_altitude sun_azimuth : Nat → ℚ)
    (sharp_from : ℚ → ℚ → ℚ) (f : HeatExch)
    (direct_normal_solar diffuse_horizontal_solar : DataCollection)
    (horizontal_infrared surface_temperatures : CollOrNum)
    (fraction_body_exposed sky_exposure floor_reflectance : Option CollOrNum)
    (solarcal_body_parameter : Option SolarCalParameter) :
    Except ComfortError SolarCalState :=
  match radiation_check diffuse_horizontal_solar "diffuse_horizontal_solar" with
  | Except.error e => Except.error e
  | Except.ok dir_norm =>
    match radiation_check diffuse_horizontal_solar
        "diffuse_horizontal_solar" with
    | Except.error e => Except.error e
    | Except.ok diff_horiz =>
      let calc_length := dir_norm.values.length
      let base := dir_norm
      match check_input_coll horizontal_infrared
          DataType.HorizontalInfraredRadiationIntensity "W/m2"
          "horizontal_infrared" base with
      | Except.error e => Except.error e
      | Except.ok (horiz_ir, reg_ir) =>
        match check_input_coll surface_temperatures DataType.Temperature "C"
            "surface_temperatures" base with
        | Except.error e => Except.error e
        | Except.ok (srf_temp, reg_srf) =>
          match (match fraction_body_exposed with
                 | some x => check_input_coll x DataType.Percentage "fraction"
                     "fraction_body_exposed" base
                 | none => Except.ok
                     (base.get_aligned_collection 1 DataType.Percentage
                       "fraction", [])) with
          | Except.error e => Except.error e
          | Except.ok (fract_exp, reg_fe) =>
            match (match sky_exposure with
                   | some x => check_input_coll x DataType.Percentage
                       "fraction" "sky_exposure" base
                   | none => Except.ok
                       (base.get_aligned_collection 1 DataType.Percentage
                         "fraction", [])) with
            | Except.error e => Except.error e
            | Except.ok (sky_exp, reg_se) =>
              match (match floor_reflectance with
                     | some x => check_input_coll x DataType.Percentage
                         "fraction" "floor_reflectance" base
                     | none => Except.ok
                         (base.get_aligned_collection (1/4) DataType.Percentage
                           "fraction", [])) with
              | Except.error e => Except.error e
              | Except.ok (flr_ref, reg_fr) =>
                let input_collections :=
                  dir_norm :: diff_horiz ::
                    (reg_ir ++ reg_srf ++ reg_fe ++ reg_se ++ reg_fr)
                match are_collections_aligned input_collections with
                | Except.error e => Except.error e
                | Except.ok _ =>
                  let bp := solarcal_body_parameter.getD default_body_par
                  let altitudes := base.datetimes.map sun_altitude
                  let sharps :=
                    match bp.body_azimuth with
                    | none => List.replicate calc_length bp.sharp
                    | some az => base.datetimes.map
                        (fun t => sharp_from (sun_azimuth t) az)
                  let rows := solarcal_rows f bp srf_temp.values
                    horiz_ir.values diff_horiz.values dir_norm.values
                    altitudes sharps sky_exp.values fract_exp.values
                    flr_ref.values
                  Except.ok
                    { calc_length := calc_length
                      dir_norm := dir_norm
                      diff_horiz := diff_horiz
                      horiz_ir := horiz_ir
                      srf_temp := srf_temp
                      fract_exp := fract_exp
                      sky_exp := sky_exp
                      flr_ref := flr_ref
                      body_par := bp
                      input_collections := input_collections
                      altitudes := altitudes
                      sharps := sharps
                      s_erf := rows.map HeatExchResult.s_erf
                      s_dmrt := rows.map HeatExchResult.s_dmrt
                      l_erf := rows.map HeatExchResult.l_erf
                      l_dmrt := rows.map HeatExchResult.l_dmrt
                      dmrt := rows.map
                        (fun r => r.s_dmrt + r.l_dmrt)
                      mrt := rows.map HeatExchResult.mrt }

/-! ## Concrete sample inputs and collaborator functions -/

/-- Build an hourly collection with consecutive integer timestamps. -/
def mkColl (dt : DataType) (u : String) (ts : Nat) (vals : List ℚ) :
    DataCollection :=
  { header := { data_type := dt, unit := u, timestep := ts }
    values := vals
    datetimes := List.range vals.length
    hourly := true
    wf := (List.length_range vals.length).symm }

/-- Sample air-temperature collection with two steps at 20 degrees. -/
def sampleAir : DataCollection :=
  mkColl DataType.Temperature "C" 1 [20, 20]

/-- Empty air-temperature collection (zero-length series). -/
def emptyAir : DataCollection :=
  mkColl DataType.Temperature "C" 1 []

/-- Direct-normal irradiance collection of length 24 (all zero). -/
def dn24 : DataCollection :=
  mkColl DataType.Irradiance "W/m2" 1 (List.replicate 24 0)

/-- Diffuse-horizontal irradiance collection of length 23 (all zero). -/
def dif23 : DataCollection :=
  mkColl DataType.Irradiance "W/m2" 1 (List.replicate 23 0)

/-- Horizontal-infrared collection of length 23 (all zero). -/
def hir23 : DataCollection :=
  mkColl DataType.HorizontalInfraredRadiationIntensity "W/m2" 1
    (List.replicate 23 0)

/-- Surface-temperature collection of length 23 (all zero). -/
def srf23 : DataCollection :=
  mkColl DataType.Temperature "C" 1 (List.replicate 23 0)

/-- Direct-normal irradiance collection with two steps at 100 W/m2. -/
def dn2 : DataCollection :=
  mkColl DataType.Irradiance "W/m2" 1 [100, 100]

/-- Diffuse-horizontal irradiance collection with a single step at 7 W/m2. -/
def dif1 : DataCollection :=
  mkColl DataType.Irradiance "W/m2" 1 [7]

/-- Horizontal-infrared collection with a single step. -/
def hir1 : DataCollection :=
  mkColl DataType.HorizontalInfraredRadiationIntensity "W/m2" 1 [300]

/-- Surface-temperature collection with a single step. -/
def srf1 : DataCollection :=
  mkColl DataType.Temperature "C" 1 [20]

/-- Radiation-tagged hourly collection with timestep 2 (invalid). -/
def radColl2 : DataCollection :=
  mkColl DataType.Radiation "Wh/m2" 2 [1]

/-- Radiation-tagged hourly collection with timestep 1 (valid). -/
def radColl1 : DataCollection :=
  mkColl DataType.Radiation "Wh/m2" 1 [1]

/-- Irradiance-tagged hourly collection with a non-unit timestep. -/
def irrColl4 : DataCollection :=
  mkColl DataType.Irradiance "W/m2" 4 [1]

/-- Sample comfort-index formula: returns the air temperature. -/
def uf0 : ℚ → ℚ → ℚ → ℚ → ℚ := fun ta _ _ _ => ta

/-- Sample eleven-point classifier: classifies everything as category 0. -/
def ef0 : ℚ → Int := fun _ => 0

/-- Sample eleven-point classifier: negative below 10, positive above 30. -/
def ef1 : ℚ → Int := fun x => if x < 10 then -2 else if 30 < x then 3 else 0

/-- Sample sun-altitude adapter: altitude equals the timestamp. -/
def alt0 : Nat → ℚ := fun t => (t : ℚ)

/-- Sample sun-azimuth adapter: azimuth is twice the timestamp. -/
def azi0 : Nat → ℚ := fun t => 2 * (t : ℚ)

/-- Sample SHARP formula: difference of the two azimuths. -/
def sharp0 : ℚ → ℚ → ℚ := fun a b => a - b

/-- Sample heat-exchange formula returning all zeros. -/
def hx0 : HeatExch := fun _ _ _ _ _ _ _ _ _ _ _ _ =>
  { s_erf := 0, s_dmrt := 0, l_erf := 0, l_dmrt := 0, mrt := 0 }

/-- Heat-exchange formula that records its direct-solar argument in `s_erf`
and its diffuse-solar argument in `l_erf`, its altitude in `s_dmrt` and its
SHARP angle in `l_dmrt`. -/
def hx_rec : HeatExch := fun ts hi df dr al se fe fr p sh ab em =>
  { s_erf := dr, s_dmrt := al, l_erf := df, l_dmrt := sh, mrt := ts }

/-- The alignment invariant of a constructed UTCI calculator: every derived
array and every participating input has length `calc_length`. -/
def UTCIState.aligned_invariant (s : UTCIState) : Prop :=
  s.utci.length = s.calc_length ∧
  s.thermal_category.length = s.calc_length ∧
  s.air_temperature.length = s.calc_length ∧
  s.rel_humidity.length = s.calc_length ∧
  s.rad_temperature.length = s.calc_length ∧
  s.wind_speed.length = s.calc_length ∧
  ∀ c ∈ s.input_collections, c.values.length = s.calc_length

/-- The alignment invariant of a constructed SolarCal calculator: every
derived array and every participating stream has length `calc_length`. -/
def SolarCalState.aligned_invariant (s : SolarCalState) : Prop :=
  s.s_erf.length = s.calc_length ∧
  s.s_dmrt.length = s.calc_length ∧
  s.l_erf.length = s.calc_length ∧
  s.l_dmrt.length = s.calc_length ∧
  s.dmrt.length = s.calc_length ∧
  s.mrt.length = s.calc_length ∧
  s.dir_norm.values.length = s.calc_length ∧
  s.diff_horiz.values.length = s.calc_length ∧
  s.horiz_ir.values.length = s.calc_length ∧
  s.srf_temp.values.length = s.calc_length ∧
  s.fract_exp.values.length = s.calc_length ∧
  s.sky_exp.values.length = s.calc_length ∧
  s.flr_ref.values.length = s.calc_length ∧
  ∀ c ∈ s.input_collections, c.values.length = s.calc_length

/-- A SolarCal body parameter with a fixed body azimuth of 180 degrees. -/
def bpAz : SolarCalParameter :=
  { posture := Posture.standing, body_azimuth := some 180, sharp := 135,
    body_absorptivity := 7/10, body_emissivity := 19/20 }

/-- Closure property of the percentage statistics: comfortable and
uncomfortable sum to 100, and cold, comfortable and hot sum to 100. -/
def percentage_closure (s : UTCIState) : Prop :=
  (∃ pc pu, s.percent_comfortable = Except.ok pc ∧
    s.percent_uncomfortable = Except.ok pu ∧ pc + pu = 100) ∧
  (∃ pc pcold phot, s.percent_comfortable = Except.ok pc ∧
    s.percent_cold = Except.ok pcold ∧ s.percent_hot = Except.ok phot ∧
    pcold + pc + phot = 100)

/-! ## Supporting lemmas -/

theorem check_input_ok {x : CollOrNum} {dt : DataType} {u nm : String}
    {n : Nat} {vals : List ℚ} {regs : List DataCollection}
    (h : check_input x dt u nm n = Except.ok (vals, regs)) :
    (vals.length = n ∧ regs = []) ∨ ∃ c, regs = [c] ∧ vals = c.values := by
  cases x with
  | num v =>
      simp only [check_input] at h
      injection h with h2
      left
      constructor
      · have hv : vals = List.replicate n v := congrArg Prod.fst h2.symm
        simp [hv]
      · exact (congrArg Prod.snd h2).symm
  | coll c =>
      simp only [check_input] at h
      split at h
      · exact Except.noConfusion h
      · injection h with h2
        right
        exact ⟨c, (congrArg Prod.snd h2).symm, (congrArg Prod.fst h2).symm⟩

theorem check_input_coll_ok {x : CollOrNum} {dt : DataType} {u nm : String}
    {base out : DataCollection} {regs : List DataCollection}
    (h : check_input_coll x dt u nm base = Except.ok (out, regs)) :
    regs = [out] ∨ (regs = [] ∧ out.values.length = base.datetimes.length) := by
  cases x with
  | num v =>
      simp only [check_input_coll] at h
      injection h with h2
      right
      refine ⟨(congrArg Prod.snd h2).symm, ?_⟩
      have hv : out = base.get_aligned_collection v dt u :=
        (congrArg Prod.fst h2).symm
      simp [hv, DataCollection.get_aligned_collection]
  | coll c =>
      simp only [check_input_coll] at h
      split at h
      · exact Except.noConfusion h
      · injection h with h2
        left
        have h3 : out = c := (congrArg Prod.fst h2).symm
        have h4 : regs = [c] := (congrArg Prod.snd h2).symm
        rw [h3, h4]

theorem aligned_ok {c : DataCollection} {rest : List DataCollection} {u : Unit}
    (h : are_collections_aligned (c :: rest) = Except.ok u) :
    ∀ d ∈ rest,
      d.values.length = c.values.length ∧ d.datetimes = c.datetimes := by
  simp only [are_collections_aligned] at h
  split at h
  · rename_i hall
    intro d hd
    have hm := List.all_eq_true.mp hall d hd
    simp only [colls_match, Bool.and_eq_true, beq_iff_eq] at hm
    exact hm
  · exact Except.noConfusion h

theorem zip4_length_of_eq : ∀ (a b c d : List ℚ) (n : Nat),
    a.length = n → b.length = n → c.length = n → d.length = n →
    (zip4 a b c d).length = n := by
  intro a
  induction a with
  | nil =>
      intro b c d n ha hb hc hd
      simp only [List.length_nil] at ha
      subst ha
      rfl
  | cons x a' ih =>
      intro b c d n ha hb hc hd
      cases b with
      | nil => simp at ha hb; omega
      | cons y b' =>
        cases c with
        | nil => simp at ha hc; omega
        | cons z c' =>
          cases d with
          | nil => simp at ha hd; omega
          | cons w d' =>
            cases n with
            | zero => simp at ha
            | succ m =>
                simp only [zip4, List.length_cons, Nat.succ.injEq] at *
                exact ih b' c' d' m ha hb hc hd

theorem countP_trichotomy (l : List Int) :
    l.countP (fun t => t < 0) + l.countP (fun t => t == 0) +
      l.countP (fun t => t > 0) = l.length := by
  induction l with
  | nil => rfl
  | cons x l ih =>
      simp only [gt_iff_lt] at ih ⊢
      simp only [List.countP_cons, List.length_cons]
      rcases lt_trichotomy x 0 with hx | hx | hx
      · have h1 : decide (x < 0) = true := decide_eq_true hx
        have h2 : (x == 0) = false := by simp [hx.ne]
        have h3 : decide (0 < x) = false := decide_eq_false (lt_asymm hx)
        simp [h1, h2, h3]
        omega
      · subst hx
        have h1 : decide ((0 : Int) < 0) = false := by decide
        have h2 : ((0 : Int) == 0) = true := by decide
        simp [h1, h2]
        omega
      · have h1 : decide (x < 0) = false := decide_eq_false (lt_asymm hx)
        have h2 : (x == 0) = false := by simp [hx.ne']
        have h3 : decide (0 < x) = true := decide_eq_true hx
        simp [h1, h2, h3]
        omega

theorem map_add_eq_zipWith (rows : List HeatExchResult) :
    rows.map (fun r => r.s_dmrt + r.l_dmrt) =
      List.zipWith (fun a b => a + b) (rows.map HeatExchResult.s_dmrt)
        (rows.map HeatExchResult.l_dmrt) := by
  induction rows with
  | nil => rfl
  | cons r rows ih =>
      simp only [List.map_cons, List.zipWith_cons_cons, ih]

theorem opt_check_ok {o : Option CollOrNum} {dt : DataType} {u nm : String}
    {n : Nat} {dflt vals : List ℚ} {regs : List DataCollection}
    (h : (match o with
          | some x => check_input x dt u nm n
          | none => Except.ok (dflt, ([] : List DataCollection))) =
        Except.ok (vals, regs)) :
    (vals = dflt ∧ regs = []) ∨ (vals.length = n ∧ regs = []) ∨
      ∃ c, regs = [c] ∧ vals = c.values := by
  cases o with
  | none =>
      injection h with h2
      exact Or.inl ⟨(congrArg Prod.fst h2).symm, (congrArg Prod.snd h2).symm⟩
  | some x =>
      rcases check_input_ok h with h' | h'
      · exact Or.inr (Or.inl h')
      · exact Or.inr (Or.inr h')

theorem radiation_check_ok {c d : DataCollection} {nm : String}
    (h : radiation_check c nm = Except.ok d) : d = c := by
  simp only [radiation_check] at h
  repeat' split at h
  all_goals first
    | exact Except.noConfusion h
    | (injection h with h2; exact h2.symm)

theorem opt_check_coll_ok {o : Option CollOrNum} {dt : DataType}
    {u nm : String} {v : ℚ} {base out : DataCollection}
    {regs : List DataCollection}
    (h : (match o with
          | some x => check_input_coll x dt u nm base
          | none => Except.ok (base.get_aligned_collection v dt u,
              ([] : List DataCollection))) = Except.ok (out, regs)) :
    regs = [out] ∨ (regs = [] ∧ out.values.length = base.datetimes.length) := by
  cases o with
  | none =>
      injection h with h2
      right
      refine ⟨(congrArg Prod.snd h2).symm, ?_⟩
      have hv : out = base.get_aligned_collection v dt u :=
        (congrArg Prod.fst h2).symm
      simp [hv, DataCollection.get_aligned_collection]
  | some x => exact check_input_coll_ok h

theorem solarcal_rows_length (f : HeatExch) (bp : SolarCalParameter) :
    ∀ (a b c d e g h i j : List ℚ) (n : Nat),
    a.length = n → b.length = n → c.length = n → d.length = n →
    e.length = n → g.length = n → h.length = n → i.length = n →
    j.length = n → (solarcal_rows f bp a b c d e g h i j).length = n := by
  intro a
  induction a with
  | nil =>
      intro b c d e g h i j n ha hb hc hd he hg hh hi hj
      simp only [List.length_nil] at ha
      subst ha
      rfl
  | cons x a' ih =>
      intro b c d e g h i j n ha hb hc hd he hg hh hi hj
      cases n with
      | zero => simp at ha
      | succ m =>
          obtain ⟨yb, b', rfl⟩ := List.exists_of_length_succ b hb
          obtain ⟨yc, c', rfl⟩ := List.exists_of_length_succ c hc
          obtain ⟨yd, d', rfl⟩ := List.exists_of_length_succ d hd
          obtain ⟨ye, e', rfl⟩ := List.exists_of_length_succ e he
          obtain ⟨yg, g', rfl⟩ := List.exists_of_length_succ g hg
          obtain ⟨yh, h', rfl⟩ := List.exists_of_length_succ h hh
          obtain ⟨yi, i', rfl⟩ := List.exists_of_length_succ i hi
          obtain ⟨yj, j', rfl⟩ := List.exists_of_length_succ j hj
          simp only [List.length_cons, Nat.succ.injEq] at ha hb hc hd he hg hh hi hj
          simp only [solarcal_rows, List.length_cons, Nat.succ.injEq]
          exact ih b' c' d' e' g' h' i' j' m ha hb hc hd he hg hh hi hj

theorem utci_ok_invariant {f : ℚ → ℚ → ℚ → ℚ → ℚ} {ep : ℚ → Int}
    {air : DataCollection} {rh : CollOrNum} {rad ws : Option CollOrNum}
    {s : UTCIState} (h : UTCI.construct f ep air rh rad ws = Except.ok s) :
    s.aligned_invariant := by
  simp only [UTCI.construct] at h
  cases h1 : check_datacoll air DataType.Temperature "C" "air_temperature" with
  | error e => simp only [h1] at h; exact Except.noConfusion h
  | ok u1 =>
    simp only [h1] at h
    cases h2 : check_input rh DataType.RelativeHumidity "%" "rel_humidity"
        air.values.length with
    | error e => simp only [h2] at h; exact Except.noConfusion h
    | ok p2 =>
      obtain ⟨rhv, reg_rh⟩ := p2
      simp only [h2] at h
      cases h3 : (match rad with
          | some x => check_input x DataType.Temperature "C" "rad_temperature"
              air.values.length
          | none => Except.ok (air.values, ([] : List DataCollection))) with
      | error e => simp only [h3] at h; exact Except.noConfusion h
      | ok p3 =>
        obtain ⟨radv, reg_rad⟩ := p3
        simp only [h3] at h
        cases h4 : (match ws with
            | some x => check_input x DataType.Speed "m/s" "air_speed"
                air.values.length
            | none => Except.ok (List.replicate air.values.length (1/10),
                ([] : List DataCollection))) with
        | error e => simp only [h4] at h; exact Except.noConfusion h
        | ok p4 =>
          obtain ⟨windv, reg_wind⟩ := p4
          simp only [h4] at h
          cases h5 : are_collections_aligned
              (air :: (reg_rh ++ reg_rad ++ reg_wind)) with
          | error e => simp only [h5] at h; exact Except.noConfusion h
          | ok u5 =>
            simp only [h5] at h
            injection h with h6
            subst h6
            have hal := aligned_ok h5
            have hrh_len : rhv.length = air.values.length := by
              rcases check_input_ok h2 with ⟨hl, _⟩ | ⟨c, hre, hv⟩
              · exact hl
              · rw [hv]; exact (hal c (by rw [hre]; simp)).1
            have hrad_len : radv.length = air.values.length := by
              rcases opt_check_ok h3 with ⟨hv, _⟩ | ⟨hl, _⟩ | ⟨c, hre, hv⟩
              · rw [hv]
              · exact hl
              · rw [hv]; exact (hal c (by rw [hre]; simp)).1
            have hwind_len : windv.length = air.values.length := by
              rcases opt_check_ok h4 with ⟨hv, _⟩ | ⟨hl, _⟩ | ⟨c, hre, hv⟩
              · rw [hv]; simp
              · exact hl
              · rw [hv]; exact (hal c (by rw [hre]; simp)).1
            have hutci_len :
                (calculate_utci f ep air.values radv windv rhv).1.length =
                  air.values.length := by
              simp only [calculate_utci]
              rw [List.length_map]
              exact zip4_length_of_eq _ _ _ _ _ rfl hrad_len hwind_len hrh_len
            have hcat_len :
                (calculate_utci f ep air.values radv windv rhv).2.length =
                  air.values.length := by
              simp only [calculate_utci]
              rw [List.length_map, List.length_map]
              exact zip4_length_of_eq _ _ _ _ _ rfl hrad_len hwind_len hrh_len
            have hmem : ∀ c ∈ air :: (reg_rh ++ reg_rad ++ reg_wind),
                c.values.length = air.values.length := by
              intro c hc
              rcases List.mem_cons.mp hc with hc' | hc'
              · rw [hc']
              · exact (hal c hc').1
            exact ⟨hutci_len, hcat_len, rfl, hrh_len, hrad_len, hwind_len,
              hmem⟩

theorem solarcal_ok_spec {alt azi : Nat → ℚ} {shf : ℚ → ℚ → ℚ} {f : HeatExch}
    {dn df : DataCollection} {hir st : CollOrNum}
    {fe se fr : Option CollOrNum} {bpo : Option SolarCalParameter}
    {s : SolarCalState}
    (h : OutdoorSolarCal.construct alt azi shf f dn df hir st fe se fr bpo =
        Except.ok s) :
    s.aligned_invariant ∧
    s.dir_norm = df ∧
    s.diff_horiz = df ∧
    s.body_par = bpo.getD default_body_par ∧
    s.altitudes = df.datetimes.map alt ∧
    s.sharps = (match (bpo.getD default_body_par).body_azimuth with
      | none => List.replicate s.calc_length (bpo.getD default_body_par).sharp
      | some az => df.datetimes.map (fun t => shf (azi t) az)) ∧
    s.dmrt = List.zipWith (fun a b => a + b) s.s_dmrt s.l_dmrt ∧
    s.calc_length = df.values.length := by
  simp only [OutdoorSolarCal.construct] at h
  cases h1 : radiation_check df "diffuse_horizontal_solar" with
  | error e => simp only [h1] at h; exact Except.noConfusion h
  | ok dnv =>
    have hdn : dnv = df := radiation_check_ok h1
    subst hdn
    simp only [h1] at h
    cases h3 : check_input_coll hir
        DataType.HorizontalInfraredRadiationIntensity "W/m2"
        "horizontal_infrared" dnv with
    | error e => simp only [h3] at h; exact Except.noConfusion h
    | ok p3 =>
      obtain ⟨hirc, reg_ir⟩ := p3
      simp only [h3] at h
      cases h4 : check_input_coll st DataType.Temperature "C"
          "surface_temperatures" dnv with
      | error e => simp only [h4] at h; exact Except.noConfusion h
      | ok p4 =>
        obtain ⟨stc, reg_srf⟩ := p4
        simp only [h4] at h
        cases h5 : (match fe with
            | some x => check_input_coll x DataType.Percentage "fraction"
                "fraction_body_exposed" dnv
            | none => Except.ok (dnv.get_aligned_collection 1
                DataType.Percentage "fraction",
                ([] : List DataCollection))) with
        | error e => simp only [h5] at h; exact Except.noConfusion h
        | ok p5 =>
          obtain ⟨fec, reg_fe⟩ := p5
          simp only [h5] at h
          cases h6 : (match se with
              | some x => check_input_coll x DataType.Percentage "fraction"
                  "sky_exposure" dnv
              | none => Except.ok (dnv.get_aligned_collection 1
                  DataType.Percentage "fraction",
                  ([] : List DataCollection))) with
          | error e => simp only [h6] at h; exact Except.noConfusion h
          | ok p6 =>
            obtain ⟨sec, reg_se⟩ := p6
            simp only [h6] at h
            cases h7 : (match fr with
                | some x => check_input_coll x DataType.Percentage "fraction"
                    "floor_reflectance" dnv
                | none => Except.ok (dnv.get_aligned_collection (1/4)
                    DataType.Percentage "fraction",
                    ([] : List DataCollection))) with
            | error e => simp only [h7] at h; exact Except.noConfusion h
            | ok p7 =>
              obtain ⟨frc, reg_fr⟩ := p7
              simp only [h7] at h
              cases h8 : are_collections_aligned (dnv :: dnv ::
                  (reg_ir ++ reg_srf ++ reg_fe ++ reg_se ++ reg_fr)) with
              | error e => simp only [h8] at h; exact Except.noConfusion h
              | ok u8 =>
                simp only [h8] at h
                injection h with h9
                subst h9
                have hwf : dnv.values.length = dnv.datetimes.length := dnv.wf
                have hal := aligned_ok h8
                have hir_len : hirc.values.length = dnv.values.length := by
                  rcases check_input_coll_ok h3 with hre | ⟨_, hlen⟩
                  · exact (hal hirc (by rw [hre]; simp)).1
                  · exact hlen.trans hwf.symm
                have hst_len : stc.values.length = dnv.values.length := by
                  rcases check_input_coll_ok h4 with hre | ⟨_, hlen⟩
                  · exact (hal stc (by rw [hre]; simp)).1
                  · exact hlen.trans hwf.symm
                have hfe_len : fec.values.length = dnv.values.length := by
                  rcases opt_check_coll_ok h5 with hre | ⟨_, hlen⟩
                  · exact (hal fec (by rw [hre]; simp)).1
                  · exact hlen.trans hwf.symm
                have hse_len : sec.values.length = dnv.values.length := by
                  rcases opt_check_coll_ok h6 with hre | ⟨_, hlen⟩
                  · exact (hal sec (by rw [hre]; simp)).1
                  · exact hlen.trans hwf.symm
                have hfr_len : frc.values.length = dnv.values.length := by
                  rcases opt_check_coll_ok h7 with hre | ⟨_, hlen⟩
                  · exact (hal frc (by rw [hre]; simp)).1
                  · exact hlen.trans hwf.symm
                have halt_len : (dnv.datetimes.map alt).length =
                    dnv.values.length := by
                  rw [List.length_map]; exact hwf.symm
                have hsharps_len :
                    (match (bpo.getD default_body_par).body_azimuth with
                      | none => List.replicate dnv.values.length
                          (bpo.getD default_body_par).sharp
                      | some az => dnv.datetimes.map
                          (fun t => shf (azi t) az)).length =
                      dnv.values.length := by
                  cases (bpo.getD default_body_par).body_azimuth with
                  | none => simp
                  | some az => rw [List.length_map]; exact hwf.symm
                have hrows_len : (solarcal_rows f (bpo.getD default_body_par)
                    stc.values hirc.values dnv.values dnv.values
                    (dnv.datetimes.map alt)
                    (match (bpo.getD default_body_par).body_azimuth with
                      | none => List.replicate dnv.values.length
                          (bpo.getD default_body_par).sharp
                      | some az => dnv.datetimes.map
                          (fun t => shf (azi t) az))
                    sec.values fec.values frc.values).length =
                    dnv.values.length :=
                  solarcal_rows_length f (bpo.getD default_body_par) _ _ _ _ _
                    _ _ _ _ _ hst_len hir_len rfl rfl halt_len hsharps_len
                    hse_len hfe_len hfr_len
                have hmem : ∀ c ∈ dnv :: dnv ::
                    (reg_ir ++ reg_srf ++ reg_fe ++ reg_se ++ reg_fr),
                    c.values.length = dnv.values.length := by
                  intro c hc
                  rcases List.mem_cons.mp hc with hc' | hc'
                  · rw [hc']
                  · rcases List.mem_cons.mp hc' with hc2 | hc2
                    · rw [hc2]
                    · exact (hal c (List.mem_cons.mpr (Or.inr hc2))).1
                refine ⟨⟨?_, ?_, ?_, ?_, ?_, ?_, rfl, rfl, hir_len, hst_len,
                    hfe_len, hse_len, hfr_len, hmem⟩, rfl, rfl, rfl, rfl, rfl,
                    map_add_eq_zipWith _, rfl⟩
                all_goals (rw [List.length_map]; exact hrows_len)

/-! ## Claim theorems -/

/-- Claim C1: the claim says that mismatched lengths between the direct-normal
stream (length 24) and the horizontal-infrared stream (length 23) must raise
`MisalignedCollections` before any computation proceeds.  On the code this
fails: `OutdoorSolarCal.__init__` validates and registers
`diffuse_horizontal_solar` twice and never registers `direct_normal_solar`, so
construction succeeds when the diffuse stream matches the other inputs even
though the direct-normal stream has a different length.  This theorem
evaluates the constructor at such an input and shows it succeeds. -/
theorem C1_no_misalignment_error :
    (OutdoorSolarCal.construct alt0 azi0 sharp0 hx0 dn24 dif23
      (CollOrNum.coll hir23) (CollOrNum.coll srf23) none none none
      none).isOk = true ∧
    dn24.values.length = 24 ∧ hir23.values.length = 23 := by decide

/-- Claim C2: the claim says the heat-exchange formula receives the
direct-normal stream value at each step as its direct-solar argument and that
`calc_length` equals the direct-normal stream's length.  On the code this
fails: `_dir_norm` is assigned from `diffuse_horizontal_solar`, so the
formula's direct-solar argument is the diffuse value (7, not 100) and
`calc_length` is the diffuse stream's length (1, not 2).  The recording
formula `hx_rec` stores its direct-solar argument in `s_erf`. -/
theorem C2_formula_receives_diffuse :
    (OutdoorSolarCal.construct alt0 azi0 sharp0 hx_rec dn2 dif1
      (CollOrNum.coll hir1) (CollOrNum.coll srf1) none none none none).map
      (fun s => (s.calc_length, s.s_erf)) = Except.ok (1, [7]) ∧
    dn2.values = [100, 100] ∧ dif1.values = [7] := by decide

/-- Claim C3, counterexample: at a zero-length series, `percent_comfortable`
neither fails with an explicit `EmptySeries` error nor returns 0 — it hits
Python's unguarded division by zero. -/
theorem C3_counterexample :
    ¬ ((UTCI.construct uf0 ef0 emptyAir (CollOrNum.num 50) none none).map
          UTCIState.percent_comfortable =
        Except.ok (Except.error PyError.EmptySeries) ∨
      (UTCI.construct uf0 ef0 emptyAir (CollOrNum.num 50) none none).map
          UTCIState.percent_comfortable = Except.ok (Except.ok 0)) := by
  decide

/-- Claim C3, amended: with `calc_length == 0` every percentage accessor of
the UTCI calculator uniformly raises an uncaught `ZeroDivisionError`; none of
them returns 0 or an explicit `EmptySeries` error. -/
theorem C3_zero_division_uniform (s : UTCIState) (h : s.calc_length = 0) :
    s.percent_comfortable = Except.error PyError.ZeroDivisionError ∧
    s.percent_uncomfortable = Except.error PyError.ZeroDivisionError ∧
    s.percent_neutral = Except.error PyError.ZeroDivisionError ∧
    s.percent_cold = Except.error PyError.ZeroDivisionError ∧
    s.percent_hot = Except.error PyError.ZeroDivisionError ∧
    ∀ k : Int, s.percent_category k =
      Except.error PyError.ZeroDivisionError := by
  refine ⟨?_, ?_, ?_, ?_, ?_, fun k => ?_⟩ <;>
    simp [UTCIState.percent_comfortable, UTCIState.percent_uncomfortable,
      UTCIState.percent_neutral, UTCIState.percent_cold,
      UTCIState.percent_hot, UTCIState.percent_category, percent_of, h]

/-- Claim C3, witness: a concretely constructed zero-length UTCI calculator
on which the amended claim's hypothesis holds. -/
theorem C3_witness :
    ∃ s, UTCI.construct uf0 ef0 emptyAir (CollOrNum.num 50) none none =
        Except.ok s ∧ s.calc_length = 0 ∧
      s.percent_comfortable = Except.error PyError.ZeroDivisionError :=
  ⟨_, rfl, rfl, (C3_zero_division_uniform _ rfl).1⟩

/-- Claim C4: for every successfully constructed calculator (UTCI and
OutdoorSolarCal), every derived array has length exactly `calc_length`, and
`calc_length` equals the length of every participating input stream. -/
theorem C4_alignment_invariant :
    (∀ (f : ℚ → ℚ → ℚ → ℚ → ℚ) (ep : ℚ → Int) (air : DataCollection)
        (rh : CollOrNum) (rad ws : Option CollOrNum) (s : UTCIState),
      UTCI.construct f ep air rh rad ws = Except.ok s →
        s.aligned_invariant) ∧
    (∀ (alt azi : Nat → ℚ) (shf : ℚ → ℚ → ℚ) (f : HeatExch)
        (dn df : DataCollection) (hir st : CollOrNum)
        (fe se fr : Option CollOrNum) (bpo : Option SolarCalParameter)
        (s : SolarCalState),
      OutdoorSolarCal.construct alt azi shf f dn df hir st fe se fr bpo =
          Except.ok s → s.aligned_invariant) :=
  ⟨fun _ _ _ _ _ _ _ h => utci_ok_invariant h,
   fun _ _ _ _ _ _ _ _ _ _ _ _ _ h => (solarcal_ok_spec h).1⟩

/-- Claim C4, witness: concrete constructions of both calculators satisfying
the alignment invariant. -/
theorem C4_witness :
    (∃ s, UTCI.construct uf0 ef0 sampleAir (CollOrNum.num 50) none none =
        Except.ok s ∧ s.aligned_invariant) ∧
    (∃ s, OutdoorSolarCal.construct alt0 azi0 sharp0 hx0 dn2 dif1
        (CollOrNum.coll hir1) (CollOrNum.coll srf1) none none none none =
        Except.ok s ∧ s.aligned_invariant) :=
  ⟨⟨_, rfl, C4_alignment_invariant.1 uf0 ef0 sampleAir (CollOrNum.num 50)
      none none _ rfl⟩,
   ⟨_, rfl, C4_alignment_invariant.2 alt0 azi0 sharp0 hx0 dn2 dif1
      (CollOrNum.coll hir1) (CollOrNum.coll srf1) none none none none _
      rfl⟩⟩

/-- Claim C5: for every constructed UTCI calculator with a non-empty category
sequence, `percent_comfortable + percent_uncomfortable = 100` and
`percent_cold + percent_comfortable + percent_hot = 100`, where the three
counts classify the eleven-point category as `< 0`, `= 0` and `> 0`. -/
theorem C5_percentage_closure (f : ℚ → ℚ → ℚ → ℚ → ℚ) (ep : ℚ → Int)
    (air : DataCollection) (rh : CollOrNum) (rad ws : Option CollOrNum)
    (s : UTCIState) (h : UTCI.construct f ep air rh rad ws = Except.ok s)
    (hn : s.calc_length ≠ 0) : percentage_closure s := by
  have hlen : s.thermal_category.length = s.calc_length :=
    (utci_ok_invariant h).2.1
  have h0 : ((s.calc_length : ℚ)) ≠ 0 := Nat.cast_ne_zero.mpr hn
  have hpc : s.percent_comfortable = Except.ok
      (((s.thermal_category.countP (fun t => t == 0) : Nat) : ℚ) /
        (s.calc_length : ℚ) * 100) := by
    simp [UTCIState.percent_comfortable, percent_of, hn]
  have hpcold : s.percent_cold = Except.ok
      (((s.thermal_category.countP (fun t => t < 0) : Nat) : ℚ) /
        (s.calc_length : ℚ) * 100) := by
    simp [UTCIState.percent_cold, percent_of, hn]
  have hphot : s.percent_hot = Except.ok
      (((s.thermal_category.countP (fun t => t > 0) : Nat) : ℚ) /
        (s.calc_length : ℚ) * 100) := by
    simp [UTCIState.percent_hot, percent_of, hn]
  have hpu : s.percent_uncomfortable = Except.ok
      (100 - ((s.thermal_category.countP (fun t => t == 0) : Nat) : ℚ) /
        (s.calc_length : ℚ) * 100) := by
    simp only [UTCIState.percent_uncomfortable, hpc]
  have habc : s.thermal_category.countP (fun t => t < 0) +
      s.thermal_category.countP (fun t => t == 0) +
      s.thermal_category.countP (fun t => t > 0) = s.calc_length :=
    (countP_trichotomy s.thermal_category).trans hlen
  constructor
  · exact ⟨_, _, hpc, hpu, by ring⟩
  · refine ⟨_, _, _, hpc, hpcold, hphot, ?_⟩
    have hq : (((s.thermal_category.countP (fun t => t < 0) : Nat) : ℚ) +
        ((s.thermal_category.countP (fun t => t == 0) : Nat) : ℚ) +
        ((s.thermal_category.countP (fun t => t > 0) : Nat) : ℚ)) =
        ((s.calc_length : Nat) : ℚ) := by
      exact_mod_cast congrArg (fun n : Nat => (n : ℚ)) habc
    field_simp
    linarith [hq]

/-- Claim C5, witness: a concrete two-step UTCI calculator on which the
closure holds. -/
theorem C5_witness :
    ∃ s, UTCI.construct uf0 ef0 sampleAir (CollOrNum.num 50) none none =
        Except.ok s ∧ s.calc_length ≠ 0 ∧ percentage_closure s :=
  ⟨_, rfl, by decide,
    C5_percentage_closure uf0 ef0 sampleAir (CollOrNum.num 50) none none _
      rfl (by decide)⟩

/-- Claim C6: `_radiation_check` accepts a `Radiation`-tagged stream only when
its native timestep is 1 (any other timestep fails), while a non-`Radiation`
stream is checked against `Irradiance` and the `W/m2` unit with no timestep
restriction. -/
theorem C6_radiation_check (c : DataCollection) (nm : String) :
    (c.header.data_type = DataType.Radiation → c.header.timestep ≠ 1 →
      (radiation_check c nm).isOk = false) ∧
    (c.header.data_type = DataType.Radiation → c.hourly = true →
      c.header.unit = "Wh/m2" →
      ((radiation_check c nm).isOk = true ↔ c.header.timestep = 1)) ∧
    (c.header.data_type = DataType.Irradiance → c.hourly = true →
      ((radiation_check c nm).isOk = true ↔ c.header.unit = "W/m2")) := by
  obtain ⟨⟨dt, u, ts⟩, vals, dts, hr, hwf⟩ := c
  refine ⟨?_, ?_, ?_⟩
  · intro hdt hts
    simp only at hdt
    subst hdt
    cases hr with
    | false => simp [radiation_check]; rfl
    | true =>
        simp only [radiation_check, check_datacoll, DataType.isInstance]
        by_cases hu : u = "Wh/m2" <;> simp [hu, hts] <;> rfl
  · intro hdt hhr hu
    simp only at hdt hu
    subst hdt
    subst hu
    subst hhr
    simp only [radiation_check, check_datacoll, DataType.isInstance]
    by_cases hts : ts = 1 <;> simp [hts] <;> rfl
  · intro hdt hhr
    simp only at hdt
    subst hdt
    subst hhr
    simp only [radiation_check, check_datacoll, DataType.isInstance]
    by_cases hu : u = "W/m2" <;> simp [hu] <;> rfl

/-- Claim C6, witness: a Radiation stream with timestep 2 is rejected, one
with timestep 1 is accepted, and an Irradiance stream with timestep 4 is
accepted (no timestep restriction). -/
theorem C6_witness :
    (radiation_check radColl2 "direct_normal_solar").isOk = false ∧
    (radiation_check radColl1 "direct_normal_solar").isOk = true ∧
    (radiation_check irrColl4 "direct_normal_solar").isOk = true :=
  ⟨(C6_radiation_check radColl2 "direct_normal_solar").1 rfl (by decide),
   ((C6_radiation_check radColl1 "direct_normal_solar").2.1 rfl rfl
      rfl).mpr rfl,
   ((C6_radiation_check irrColl4 "direct_normal_solar").2.2 rfl rfl).mpr rfl⟩

/-- Claim C7: in the per-timestep pass, when the body parameters carry a fixed
body azimuth the SHARP angle at step `i` is derived from that step's solar
azimuth and the body azimuth; when the azimuth is absent the fixed SHARP value
of the body parameters is used unchanged at every step. -/
theorem C7_sharp_selection (alt azi : Nat → ℚ) (shf : ℚ → ℚ → ℚ)
    (f : HeatExch) (dn df : DataCollection) (hir st : CollOrNum)
    (fe se fr : Option CollOrNum) (bpo : Option SolarCalParameter)
    (s : SolarCalState)
    (h : OutdoorSolarCal.construct alt azi shf f dn df hir st fe se fr bpo =
        Except.ok s) :
    (s.body_par.body_azimuth = none →
      ∀ i, i < s.calc_length → s.sharps.getD i 0 = s.body_par.sharp) ∧
    (∀ az, s.body_par.body_azimuth = some az →
      ∀ i, i < s.calc_length →
        s.sharps.getD i 0 = shf (azi (s.dir_norm.datetimes.getD i 0)) az) := by
  obtain ⟨hinv, hdir, hdiff, hbp, halts, hsharps, hzip, hcl⟩ :=
    solarcal_ok_spec h
  constructor
  · intro haz i hi
    rw [hbp] at haz
    rw [hsharps, hbp, haz]
    simp only
    rw [List.getD_eq_getElem?_getD, List.getElem?_replicate, if_pos hi]
    rfl
  · intro az haz i hi
    rw [hbp] at haz
    have hi' : i < s.dir_norm.datetimes.length := by
      rw [hdir, ← df.wf, ← hcl]
      exact hi
    rw [hsharps, haz]
    simp only
    rw [hdir] at hi' ⊢
    rw [List.getD_eq_getElem?_getD, List.getElem?_map,
      List.getElem?_eq_getElem hi']
    rw [List.getD_eq_getElem?_getD, List.getElem?_eq_getElem hi']
    rfl

/-- Claim C7, witness: with a body azimuth of 180 the first SHARP value comes
from the SHARP formula applied to the solar azimuth; without a body azimuth it
is the body parameters' fixed SHARP value. -/
theorem C7_witness :
    (∃ s, OutdoorSolarCal.construct alt0 azi0 sharp0 hx0 dn2 dif1
        (CollOrNum.coll hir1) (CollOrNum.coll srf1) none none none
        (some bpAz) = Except.ok s ∧
      s.sharps.getD 0 0 =
        sharp0 (azi0 (s.dir_norm.datetimes.getD 0 0)) 180) ∧
    (∃ s, OutdoorSolarCal.construct alt0 azi0 sharp0 hx0 dn2 dif1
        (CollOrNum.coll hir1) (CollOrNum.coll srf1) none none none none =
        Except.ok s ∧ s.sharps.getD 0 0 = s.body_par.sharp) :=
  ⟨⟨_, rfl, (C7_sharp_selection alt0 azi0 sharp0 hx0 dn2 dif1
      (CollOrNum.coll hir1) (CollOrNum.coll srf1) none none none
      (some bpAz) _ rfl).2 180 rfl 0 (by decide)⟩,
   ⟨_, rfl, (C7_sharp_selection alt0 azi0 sharp0 hx0 dn2 dif1
      (CollOrNum.coll hir1) (CollOrNum.coll srf1) none none none none _
      rfl).1 rfl 0 (by decide)⟩⟩

/-- Claim C8: in the UTCI calculator, when the mean-radiant-temperature input
is omitted the radiant values equal the air-temperature values, and when the
wind-speed input is omitted every step uses 0.1 m/s. -/
theorem C8_utci_defaults (f : ℚ → ℚ → ℚ → ℚ → ℚ) (ep : ℚ → Int)
    (air : DataCollection) (rh : CollOrNum) (rad ws : Option CollOrNum) :
    (∀ s, UTCI.construct f ep air rh none ws = Except.ok s →
      s.rad_temperature = s.air_temperature) ∧
    (∀ s, UTCI.construct f ep air rh rad none = Except.ok s →
      s.wind_speed = List.replicate s.calc_length (1/10)) := by
  constructor <;>
    (intro s h
     simp only [UTCI.construct] at h
     repeat' split at h
     all_goals first
       | exact Except.noConfusion h
       | (injection h with h2; subst h2; rfl))

/-- Claim C8, witness: concrete constructions with the radiant input omitted
and with the wind input omitted. -/
theorem C8_witness :
    (∃ s, UTCI.construct uf0 ef0 sampleAir (CollOrNum.num 50) none
        (some (CollOrNum.num 2)) = Except.ok s ∧
      s.rad_temperature = s.air_temperature) ∧
    (∃ s, UTCI.construct uf0 ef0 sampleAir (CollOrNum.num 50)
        (some (CollOrNum.num 25)) none = Except.ok s ∧
      s.wind_speed = List.replicate s.calc_length (1/10)) :=
  ⟨⟨_, rfl, (C8_utci_defaults uf0 ef0 sampleAir (CollOrNum.num 50)
      (some (CollOrNum.num 25)) (some (CollOrNum.num 2))).1 _ rfl⟩,
   ⟨_, rfl, (C8_utci_defaults uf0 ef0 sampleAir (CollOrNum.num 50)
      (some (CollOrNum.num 25)) (some (CollOrNum.num 2))).2 _ rfl⟩⟩

/-- Claim C9: for every constructed OutdoorSolarCal, the total MRT delta array
is the per-step sum of the shortwave and longwave MRT deltas, and each of the
five formula outputs is accumulated into its own full-length derived array. -/
theorem C9_total_mrt_delta (alt azi : Nat → ℚ) (shf : ℚ → ℚ → ℚ)
    (f : HeatExch) (dn df : DataCollection) (hir st : CollOrNum)
    (fe se fr : Option CollOrNum) (bpo : Option SolarCalParameter)
    (s : SolarCalState)
    (h : OutdoorSolarCal.construct alt azi shf f dn df hir st fe se fr bpo =
        Except.ok s) :
    s.dmrt = List.zipWith (fun a b => a + b) s.s_dmrt s.l_dmrt ∧
    s.s_erf.length = s.calc_length ∧ s.s_dmrt.length = s.calc_length ∧
    s.l_erf.length = s.calc_length ∧ s.l_dmrt.length = s.calc_length ∧
    s.dmrt.length = s.calc_length ∧ s.mrt.length = s.calc_length := by
  obtain ⟨⟨h1, h2, h3, h4, h5, h6, _⟩, _, _, _, _, _, hzip, _⟩ :=
    solarcal_ok_spec h
  exact ⟨hzip, h1, h2, h3, h4, h5, h6⟩

/-- Claim C9, witness: a concrete construction whose total MRT delta is the
per-step sum of the shortwave and longwave deltas. -/
theorem C9_witness :
    ∃ s, OutdoorSolarCal.construct alt0 azi0 sharp0 hx_rec dn2 dif1
        (CollOrNum.coll hir1) (CollOrNum.coll srf1) none none none none =
        Except.ok s ∧
      s.dmrt = List.zipWith (fun a b => a + b) s.s_dmrt s.l_dmrt ∧
      s.dmrt.length = s.calc_length :=
  ⟨_, rfl, (C9_total_mrt_delta alt0 azi0 sharp0 hx_rec dn2 dif1
      (CollOrNum.coll hir1) (CollOrNum.coll srf1) none none none none _
      rfl).1,
   (C9_total_mrt_delta alt0 azi0 sharp0 hx_rec dn2 dif1
      (CollOrNum.coll hir1) (CollOrNum.coll srf1) none none none none _
      rfl).2.2.2.2.2.1⟩

/-- Claim C10: `percent_neutral` always returns exactly `percent_comfortable`,
and `percent_comfortable` counts steps whose eleven-point category is exactly
0 (not the tri-state `thermal_condition` classification). -/
theorem C10_percent_neutral_eq_comfortable (s : UTCIState) :
    s.percent_neutral = s.percent_comfortable ∧
    s.percent_comfortable =
      percent_of s.thermal_category s.calc_length (fun t => t == 0) :=
  ⟨rfl, rfl⟩
